import Mathlib

/-
Shallow embedding of the core logic of the lostnfound Django application:
the records and enums of inventory/models.py, the listing and mutation
logic of inventory/views.py, the claim form of inventory/forms.py, and the
vision suggestion client of inventory/services.py.

Datetimes (timezone.now(), Item.claimed_at) are modelled as integer
timestamps counted in seconds; a Python timedelta of d days is d * 86400
seconds.  Database text fields constrained by TextChoices are modelled as
inductive enums whose constructor names are the stored code strings.
-/

namespace LostFound

/-- Item.Status (models.py): FOUND or CLAIMED. -/
inductive Status where
  | FOUND
  | CLAIMED
  deriving DecidableEq

/-- Item.Category (models.py), in declaration order, which is also the
order of Item.Category.choices iterated over in the listing views. -/
inductive Category where
  | ELECTRONICS
  | BAGS_AND_CARRY
  | SPORTS_AND_CLOTHING
  | BOTTLES_AND_CONTAINERS
  | DOCUMENTS_AND_IDS
  | NOTEBOOKS_AND_BOOKS
  | OTHER_MISC
  deriving DecidableEq

/-- Item.ApprovalStatus (models.py): PENDING, APPROVED or REJECTED. -/
inductive ApprovalStatus where
  | PENDING
  | APPROVED
  | REJECTED
  deriving DecidableEq

/-- Item.ItemType (models.py): SENIOR (Senior Years) or PY (Primary Years). -/
inductive ItemType where
  | SENIOR
  | PY
  deriving DecidableEq

/-- Item.Category.choices as iterated by the listing views (the codes, in
model declaration order). -/
def Category.choices : List Category :=
  [Category.ELECTRONICS, Category.BAGS_AND_CARRY, Category.SPORTS_AND_CLOTHING,
   Category.BOTTLES_AND_CONTAINERS, Category.DOCUMENTS_AND_IDS,
   Category.NOTEBOOKS_AND_BOOKS, Category.OTHER_MISC]

/-- The Item model (models.py lines 26-113).  Auto timestamps
(created_at / updated_at) are omitted; created_by is the username of the
creating account, if any; claimed_at is None or a timestamp. -/
structure Item where
  id : Nat
  title : String
  description : String
  location_found : String
  date_found : Int
  status : Status
  category : Category
  approval_status : ApprovalStatus
  item_type : ItemType
  created_by : Option String
  claimed_by_name : String
  claimed_at : Option Int
  deriving DecidableEq

/-- ItemListView.get_claim_duration_days (views.py lines 184-195): the
duration_map dictionary; every category is listed explicitly, and the
dict .get default of 1 is unreachable. -/
def get_claim_duration_days : Category → Nat
  | Category.ELECTRONICS => 7
  | Category.SPORTS_AND_CLOTHING => 3
  | Category.BAGS_AND_CARRY => 1
  | Category.BOTTLES_AND_CONTAINERS => 1
  | Category.OTHER_MISC => 1
  | Category.DOCUMENTS_AND_IDS => 1
  | Category.NOTEBOOKS_AND_BOOKS => 1

/-- One disjunct of the claimed_q_objects accumulator in
ItemListView.get_queryset (views.py lines 201-210): status == CLAIMED,
category == c, claimed_at is not null, and claimed_at >= now minus
timedelta(days = duration) for the duration of category c. -/
def claimedWindowQ (now : Int) (c : Category) (it : Item) : Bool :=
  decide (it.status = Status.CLAIMED) && decide (it.category = c) &&
    (match it.claimed_at with
     | none => false
     | some t => decide (now - (get_claim_duration_days c : Int) * 86400 ≤ t))

/-- The full claimed_q_objects disjunction, ORed over Item.Category.choices
(views.py lines 201-210). -/
def claimedWindowAny (now : Int) (it : Item) : Bool :=
  Category.choices.any (fun c => claimedWindowQ now c it)

/-- Membership in the base queryset of the public browse listing
(ItemListView.get_queryset, views.py lines 212-217; PrimaryYearsListView
is identical with the other segment): (status == FOUND OR
claimed_q_objects) AND approval_status == APPROVED AND item_type ==
segment.  The optional GET filters (category, q, location, date range)
further restrict this set and are absent on the plain browse request. -/
def item_list_queryset_member (now : Int) (segment : ItemType) (it : Item) : Bool :=
  (decide (it.status = Status.FOUND) || claimedWindowAny now it) &&
    decide (it.approval_status = ApprovalStatus.APPROVED) &&
    decide (it.item_type = segment)

/-- Modelled from the spec: category_claim_window of section 4.1
(Electronics 7 days, Sports and Clothing 3 days, every other category
1 day), for comparison with get_claim_duration_days. -/
def category_claim_window : Category → Nat
  | Category.ELECTRONICS => 7
  | Category.SPORTS_AND_CLOTHING => 3
  | _ => 1

/-- Modelled from the spec: the public listing contract of section 4.1
exactly as written, with the STRICT comparison now - claimed_at <
category_claim_window(category). -/
def spec_listed_strict (now : Int) (segment : ItemType) (it : Item) : Bool :=
  decide (it.approval_status = ApprovalStatus.APPROVED) &&
    decide (it.item_type = segment) &&
    (decide (it.status = Status.FOUND) ||
      (decide (it.status = Status.CLAIMED) &&
        (match it.claimed_at with
         | none => false
         | some t => decide (now - t < (category_claim_window it.category : Int) * 86400))))

/-- The spec listing contract amended to the NON-strict comparison
now - claimed_at ≤ category_claim_window(category), matching the
claimed_at >= cutoff filter the code actually issues. -/
def spec_listed_le (now : Int) (segment : ItemType) (it : Item) : Bool :=
  decide (it.approval_status = ApprovalStatus.APPROVED) &&
    decide (it.item_type = segment) &&
    (decide (it.status = Status.FOUND) ||
      (decide (it.status = Status.CLAIMED) &&
        (match it.claimed_at with
         | none => false
         | some t => decide (now - t ≤ (category_claim_window it.category : Int) * 86400))))

/-- The claimed_q_objects disjunction only fires on the disjunct of the
category carried by the item itself. -/
theorem claimedWindowAny_eq_own (now : Int) (it : Item) :
    claimedWindowAny now it = claimedWindowQ now it.category it := by
  obtain ⟨i, ti, de, lo, df, st, cat, ap, ty, cr, cbn, ca⟩ := it
  cases cat <;>
    simp [claimedWindowAny, Category.choices, claimedWindowQ]

/-- An APPROVED, SENIOR Electronics item claimed exactly 7 days before the
query time, on which the code listing and the strict spec formula
disagree: the queryset keeps it (claimed_at >= cutoff holds with
equality) while the strict formula drops it. -/
def c1BoundaryItem : Item :=
  { id := 1, title := "laptop", description := "", location_found := "",
    date_found := 0, status := Status.CLAIMED, category := Category.ELECTRONICS,
    approval_status := ApprovalStatus.APPROVED, item_type := ItemType.SENIOR,
    created_by := none, claimed_by_name := "A", claimed_at := some 0 }

/-- C1, counterexample: the claimed equivalence between listing membership
and the strict-window spec formula fails at an item claimed exactly
category_claim_window earlier (7 days for Electronics): the code lists
it, the strict formula excludes it. -/
theorem c1_strict_window_fails :
    ¬ (item_list_queryset_member 604800 ItemType.SENIOR c1BoundaryItem = true ↔
        spec_listed_strict 604800 ItemType.SENIOR c1BoundaryItem = true) := by
  decide

/-- The spec window table agrees with the duration_map of the view. -/
theorem window_eq_duration (c : Category) :
    category_claim_window c = get_claim_duration_days c := by
  cases c <;> rfl

/-- C1, amended: for every item, query time and requested segment, the item
is in the public browse queryset if and only if approval_status is
APPROVED, item_type equals the segment, and status is FOUND or status is
CLAIMED with claimed_at non-null and now - claimed_at AT MOST (not
strictly less than) the category claim window (7 days Electronics, 3 days
Sports and Clothing, 1 day otherwise). -/
theorem c1_listing_window_le (now : Int) (segment : ItemType) (it : Item) :
    item_list_queryset_member now segment it = spec_listed_le now segment it := by
  obtain ⟨i, ti, de, lo, df, st, cat, ap, ty, cr, cbn, ca⟩ := it
  rw [Bool.eq_iff_iff]
  cases st <;> cases ca <;> cases ap <;> cases ty <;> cases segment <;>
    simp [item_list_queryset_member, spec_listed_le, claimedWindowAny_eq_own,
      claimedWindowQ, window_eq_duration] <;>
    omega

/-- The Django auth user account, with the built-in flags the code reads
(is_authenticated, is_staff, is_superuser) and the username. -/
structure AuthUser where
  username : String
  is_authenticated : Bool
  is_staff : Bool
  is_superuser : Bool
  deriving DecidableEq

/-- The UserProfile model (models.py lines 5-15): a one-to-one extension of
an auth user carrying the is_super_user flag. -/
structure UserProfileRec where
  user : AuthUser
  is_super_user : Bool
  deriving DecidableEq

/-- The is_super_user helper of views.py lines 21-25: False for an
unauthenticated user, otherwise the value of the BUILT-IN Django
user.is_superuser flag.  The UserProfile row is not consulted. -/
def is_super_user (user : AuthUser) : Bool :=
  if !user.is_authenticated then false else user.is_superuser

/-- An authenticated staff account whose Django is_superuser flag is off. -/
def c4User : AuthUser :=
  { username := "alex", is_authenticated := true, is_staff := true,
    is_superuser := false }

/-- The same account with its Lost and Found profile flag switched on. -/
def c4Profile : UserProfileRec := { user := c4User, is_super_user := true }

/-- C4, counterexample: an authenticated user whose UserProfile
is_super_user flag is true but whose Django is_superuser flag is false is
not treated as a Super User by the permission check, so the claimed
equivalence with the profile flag fails. -/
theorem c4_profile_flag_not_consulted :
    ¬ (is_super_user c4Profile.user = true ↔ c4Profile.is_super_user = true) := by
  decide

/-- C4, amended: the system treats a user as a Super User if and only if
the user is authenticated and the BUILT-IN Django is_superuser flag is
true; the UserProfile.is_super_user flag plays no role in the check. -/
theorem c4_super_user_is_django_flag (u : AuthUser) :
    is_super_user u = (u.is_authenticated && u.is_superuser) := by
  obtain ⟨n, auth, staff, su⟩ := u
  cases auth <;> cases su <;> rfl

/-- UserProfile.save as evidently intended by models.py lines 17-20: force
is_super_user to True when the linked username is exactly "advait", then
persist.  In the source the body of the method (lines 18-19) is dedented
to class level, which is a Python IndentationError; the definition models
the intended nesting that the inline comment on line 18 marks. -/
def user_profile_save (p : UserProfileRec) : UserProfileRec :=
  if p.user.username = "advait" then { p with is_super_user := true } else p

/-- C10: whenever a UserProfile whose linked username is exactly "advait"
is saved, the persisted is_super_user flag is True, regardless of the
value the caller set. -/
theorem c10_advait_forced_super (p : UserProfileRec)
    (h : p.user.username = "advait") :
    (user_profile_save p).is_super_user = true := by
  simp [user_profile_save, h]

/-- C10, witness: saving a profile for username "advait" whose flag was set
to false persists the flag as true. -/
theorem c10_advait_forced_super_witness :
    (user_profile_save
      { user := { username := "advait", is_authenticated := true,
                  is_staff := false, is_superuser := false },
        is_super_user := false }).is_super_user = true :=
  c10_advait_forced_super _ rfl

/-- The fields of ItemForm (forms.py lines 7-18): title, description,
location_found, date_found, status, category.  approval_status and
item_type are not form fields. -/
structure ItemFormData where
  title : String
  description : String
  location_found : String
  date_found : Int
  status : Status
  category : Category
  deriving DecidableEq

/-- The Item instance produced by item_form.save(commit=False) followed by
the assignment item.created_by = request.user: form fields are copied and
every non-form field takes its model default, in particular
approval_status = APPROVED (models.py line 68) and item_type = SENIOR
(models.py line 75); pk is the key the database assigns on save. -/
def item_form_instance (d : ItemFormData) (pk : Nat) (creator : Option String) : Item :=
  { id := pk, title := d.title, description := d.description,
    location_found := d.location_found, date_found := d.date_found,
    status := d.status, category := d.category,
    approval_status := ApprovalStatus.APPROVED,
    item_type := ItemType.SENIOR,
    created_by := creator,
    claimed_by_name := "", claimed_at := none }

/-- ItemUploadView.post (views.py lines 74-125) on a valid form: the saved
item gets approval_status APPROVED when is_super_user(request.user) holds
and PENDING otherwise. -/
def item_upload_post (actor_is_super : Bool) (d : ItemFormData) (pk : Nat)
    (creator : Option String) : Item :=
  let item := item_form_instance d pk creator
  if actor_is_super then { item with approval_status := ApprovalStatus.APPROVED }
  else { item with approval_status := ApprovalStatus.PENDING }

/-- ItemUploadConfirmView.post (views.py lines 150-176) on a valid form:
the item is saved as the form instance stands, with no assignment to
approval_status at all, so the model default APPROVED persists.  The view
is guarded by StaffRequiredMixin, so only staff accounts that are NOT
Super Users reach it. -/
def item_upload_confirm_post (d : ItemFormData) (pk : Nat)
    (creator : Option String) : Item :=
  item_form_instance d pk creator

/-- The two staff upload routes of the claim: the plain upload view and the
upload-confirm view. -/
inductive UploadRoute where
  | direct
  | confirm
  deriving DecidableEq

/-- An item created through either staff upload route. -/
def staff_upload (route : UploadRoute) (actor_is_super : Bool)
    (d : ItemFormData) (pk : Nat) (creator : Option String) : Item :=
  match route with
  | UploadRoute.direct => item_upload_post actor_is_super d pk creator
  | UploadRoute.confirm => item_upload_confirm_post d pk creator

/-- A sample valid upload form. -/
def c3Form : ItemFormData :=
  { title := "umbrella", description := "", location_found := "gate",
    date_found := 20000, status := Status.FOUND, category := Category.OTHER_MISC }

/-- C3, counterexample: an item created through the upload-confirm route by
a non-Super-User staff actor is persisted with approval_status APPROVED
(the model default), not the PENDING the claim requires for a
non-Super-User creator. -/
theorem c3_confirm_route_not_pending :
    ¬ ((staff_upload UploadRoute.confirm false c3Form 1 (some "alex")).approval_status =
        ApprovalStatus.PENDING) := by
  decide

/-- C3, amended: an item created through ItemUploadView is persisted
APPROVED when the creating actor is a Super User and PENDING otherwise;
an item created through ItemUploadConfirmView (reachable only by
non-Super-User staff) is persisted with the model default APPROVED. -/
theorem c3_upload_approval_by_route (actor_is_super : Bool) (d : ItemFormData)
    (pk : Nat) (creator : Option String) :
    (staff_upload UploadRoute.direct actor_is_super d pk creator).approval_status =
      (if actor_is_super then ApprovalStatus.APPROVED else ApprovalStatus.PENDING) ∧
    (staff_upload UploadRoute.confirm actor_is_super d pk creator).approval_status =
      ApprovalStatus.APPROVED := by
  cases actor_is_super <;> exact ⟨rfl, rfl⟩

/-- ApproveItemView.post for item_type admin (views.py lines 592-598):
get_object_or_404 filters on pk AND approval_status == PENDING, so a
non-PENDING item makes the request fail with a 404 and nothing is saved
(second component false); a PENDING item is set to APPROVED and saved
(second component true). -/
def approve_admin_item (it : Item) : Item × Bool :=
  if it.approval_status = ApprovalStatus.PENDING then
    ({ it with approval_status := ApprovalStatus.APPROVED }, true)
  else
    (it, false)

/-- C6: approving succeeds exactly on PENDING items and transitions them to
APPROVED; re-approving the result fails with the not-pending (404) error
and leaves the item unchanged; and approving any non-PENDING item fails
with that error and changes nothing. -/
theorem c6_approve_exactly_once (it : Item) :
    (it.approval_status = ApprovalStatus.PENDING →
      approve_admin_item it =
        ({ it with approval_status := ApprovalStatus.APPROVED }, true) ∧
      approve_admin_item { it with approval_status := ApprovalStatus.APPROVED } =
        ({ it with approval_status := ApprovalStatus.APPROVED }, false)) ∧
    (it.approval_status ≠ ApprovalStatus.PENDING →
      approve_admin_item it = (it, false)) := by
  constructor
  · intro h
    constructor <;> simp [approve_admin_item, h]
  · intro h
    simp [approve_admin_item, h]

/-- A sample pending item. -/
def c6PendingItem : Item :=
  { id := 9, title := "bottle", description := "", location_found := "",
    date_found := 0, status := Status.FOUND, category := Category.BOTTLES_AND_CONTAINERS,
    approval_status := ApprovalStatus.PENDING, item_type := ItemType.SENIOR,
    created_by := some "alex", claimed_by_name := "", claimed_at := none }

/-- C6, witness: on a concrete PENDING item the first approval succeeds and
flips the state to APPROVED, the second attempt fails and leaves it
APPROVED, and approving an already REJECTED item fails unchanged. -/
theorem c6_approve_exactly_once_witness :
    (approve_admin_item c6PendingItem =
      ({ c6PendingItem with approval_status := ApprovalStatus.APPROVED }, true) ∧
     approve_admin_item { c6PendingItem with approval_status := ApprovalStatus.APPROVED } =
      ({ c6PendingItem with approval_status := ApprovalStatus.APPROVED }, false)) ∧
    approve_admin_item { c6PendingItem with approval_status := ApprovalStatus.REJECTED } =
      ({ c6PendingItem with approval_status := ApprovalStatus.REJECTED }, false) :=
  ⟨(c6_approve_exactly_once c6PendingItem).1 rfl,
   (c6_approve_exactly_once
      { c6PendingItem with approval_status := ApprovalStatus.REJECTED }).2 (by decide)⟩

/-- The Claim model (models.py lines 116-133): a row linking an item to a
claimant name with the claim timestamp (auto_now_add). -/
structure ClaimRec where
  item_id : Nat
  claimant_name : String
  claimed_at : Int
  deriving DecidableEq

/-- Python str.strip / the Django CharField strip step: drop whitespace
characters from both ends of the string (whitespace here is the set
Char.isWhitespace covers: space, tab, carriage return, line feed). -/
def pyStrip (s : String) : String :=
  String.mk (((s.toList.dropWhile Char.isWhitespace).reverse.dropWhile
    Char.isWhitespace).reverse)

/-- Validation of ClaimItemForm (forms.py lines 32-43): a single CharField
named name, required, max_length 255.  Django CharFields strip
surrounding whitespace before validating, reject the empty result
(required) and reject results longer than max_length; on success
cleaned_data carries the stripped name. -/
def clean_name (raw : String) : Option String :=
  let s := pyStrip raw
  if s.length = 0 then none
  else if 255 < s.length then none
  else some s

/-- The state ClaimItemView.post touches: the target item row and its claim
rows, newest first (Claim.Meta orders by claimed_at descending and the
new row carries the newest timestamp). -/
structure ClaimState where
  item : Item
  claims : List ClaimRec
  deriving DecidableEq

/-- ClaimItemView.post (views.py lines 266-312) on an existing item: when
the form validates, a Claim row is created unconditionally, and only when
the item status is FOUND the item is flipped to CLAIMED with the legacy
claimed_by_name / claimed_at fields stamped from this claim; when the
form is invalid, every field error is surfaced as an error message and
nothing is written.  The second component is true on the success branch
and false on the error branch. -/
def claim_item_post (now : Int) (st : ClaimState) (raw : String) : ClaimState × Bool :=
  match clean_name raw with
  | some name =>
      let c : ClaimRec :=
        { item_id := st.item.id, claimant_name := name, claimed_at := now }
      let item :=
        if st.item.status = Status.FOUND then
          { st.item with status := Status.CLAIMED, claimed_by_name := name,
                         claimed_at := some now }
        else st.item
      ({ item := item, claims := c :: st.claims }, true)
  | none => (st, false)

/-- C5: a claim with a valid name always prepends a new Claim row linked to
the item; a FOUND item is flipped to CLAIMED with the legacy fields
stamped from this claim; an already CLAIMED item is left entirely
unchanged, legacy fields included. -/
theorem c5_claim_record_and_legacy_stamp (now : Int) (st : ClaimState)
    (raw name : String) (h : clean_name raw = some name) :
    (claim_item_post now st raw).1.claims =
      { item_id := st.item.id, claimant_name := name, claimed_at := now } :: st.claims ∧
    (st.item.status = Status.FOUND →
      (claim_item_post now st raw).1.item =
        { st.item with status := Status.CLAIMED, claimed_by_name := name,
                       claimed_at := some now }) ∧
    (st.item.status = Status.CLAIMED →
      (claim_item_post now st raw).1.item = st.item) := by
  refine ⟨?_, ?_, ?_⟩
  · simp [claim_item_post, h]
  · intro hf
    simp [claim_item_post, h, hf]
  · intro hc
    have hnf : ¬ st.item.status = Status.FOUND := by
      rw [hc]
      intro hcontra
      cases hcontra
    simp [claim_item_post, h, hnf]

/-- A FOUND, approved item with no claims yet. -/
def c5FoundItem : Item :=
  { id := 3, title := "jacket", description := "", location_found := "field",
    date_found := 100, status := Status.FOUND, category := Category.SPORTS_AND_CLOTHING,
    approval_status := ApprovalStatus.APPROVED, item_type := ItemType.SENIOR,
    created_by := none, claimed_by_name := "", claimed_at := none }

/-- The sample item after the first claim by Alice at time 500. -/
def c5ClaimedItem : Item :=
  { c5FoundItem with status := Status.CLAIMED, claimed_by_name := "Alice",
                     claimed_at := some 500 }

/-- C5, witness: claiming the FOUND sample item with the name " Alice "
(stripped to "Alice") creates the claim row and stamps the legacy fields,
and claiming the resulting CLAIMED state again with "Bob" only adds a
second claim row, leaving the item and its legacy fields unchanged. -/
theorem c5_claim_record_and_legacy_stamp_witness :
    (claim_item_post 500 { item := c5FoundItem, claims := [] } " Alice ").1.claims =
      [{ item_id := 3, claimant_name := "Alice", claimed_at := 500 }] ∧
    (claim_item_post 500 { item := c5FoundItem, claims := [] } " Alice ").1.item =
      c5ClaimedItem ∧
    (claim_item_post 900
        { item := c5ClaimedItem,
          claims := [{ item_id := 3, claimant_name := "Alice", claimed_at := 500 }] }
        "Bob").1.item = c5ClaimedItem := by
  have h1 := c5_claim_record_and_legacy_stamp 500
    { item := c5FoundItem, claims := [] } " Alice " "Alice" (by decide)
  have h2 := c5_claim_record_and_legacy_stamp 900
    { item := c5ClaimedItem,
      claims := [{ item_id := 3, claimant_name := "Alice", claimed_at := 500 }] }
    "Bob" "Bob" (by decide)
  exact ⟨h1.1, h1.2.1 rfl, h2.2.2 rfl⟩

/-- C7: a claim request whose name fails validation (empty after stripping,
or longer than 255 characters) takes the error branch and performs no
state change at all: the item and the claim rows are exactly as before. -/
theorem c7_invalid_name_no_state_change (now : Int) (st : ClaimState)
    (raw : String) (h : clean_name raw = none) :
    claim_item_post now st raw = (st, false) := by
  simp [claim_item_post, h]

/-- C7, witness: a whitespace-only name on a concrete FOUND item is
rejected and leaves the state untouched. -/
theorem c7_invalid_name_no_state_change_witness :
    claim_item_post 500 { item := c5FoundItem, claims := [] } "   " =
      ({ item := c5FoundItem, claims := [] }, false) :=
  c7_invalid_name_no_state_change 500 { item := c5FoundItem, claims := [] }
    "   " (by decide)

/-- ItemDetailView (views.py lines 253-259): its queryset is all Item rows,
with no approval_status or item_type filter, and DetailView fetches by
primary key. -/
def item_detail (db : List Item) (pk : Nat) : Option Item :=
  db.find? (fun it => it.id == pk)

/-- C9: the public detail view returns an item by its id whatever its
approval_status and item_type are (assuming, as the database guarantees,
that no earlier row shares the id), and an item whose approval_status is
not APPROVED is excluded from every public listing, so a PENDING or
REJECTED item is still publicly viewable by direct link. -/
theorem c9_detail_ignores_approval (pre post : List Item) (it : Item)
    (now : Int) (seg : ItemType) (hpre : ∀ x ∈ pre, x.id ≠ it.id) :
    item_detail (pre ++ it :: post) it.id = some it ∧
    (it.approval_status ≠ ApprovalStatus.APPROVED →
      item_list_queryset_member now seg it = false) := by
  constructor
  · induction pre with
    | nil => simp [item_detail]
    | cons x xs ih =>
        have hx : ¬ (x.id == it.id) = true := by
          simpa using hpre x (List.mem_cons_self x xs)
        have hxs : ∀ y ∈ xs, y.id ≠ it.id := fun y hy =>
          hpre y (List.mem_cons_of_mem x hy)
        calc item_detail ((x :: xs) ++ it :: post) it.id
            = item_detail (xs ++ it :: post) it.id := by
              simp [item_detail, List.find?_cons_of_neg, hx]
          _ = some it := ih hxs
  · intro h
    simp [item_list_queryset_member, h]

/-- A PENDING item reachable only by direct link. -/
def c9PendingItem : Item :=
  { id := 12, title := "wallet", description := "", location_found := "",
    date_found := 0, status := Status.FOUND, category := Category.DOCUMENTS_AND_IDS,
    approval_status := ApprovalStatus.PENDING, item_type := ItemType.SENIOR,
    created_by := some "alex", claimed_by_name := "", claimed_at := none }

/-- C9, witness: in a concrete two-item table the PENDING item is returned
by the detail view under its id while the senior listing excludes it. -/
theorem c9_detail_ignores_approval_witness :
    item_detail [c6PendingItem, c9PendingItem] c9PendingItem.id = some c9PendingItem ∧
    item_list_queryset_member 0 ItemType.SENIOR c9PendingItem = false := by
  have h := c9_detail_ignores_approval [c6PendingItem] [] c9PendingItem 0
    ItemType.SENIOR (by decide)
  exact ⟨h.1, h.2 (by decide)⟩

/-- Python str.lower as the source applies it (services.py line 151),
character by character; Char.toLower lowers exactly the ASCII letters. -/
def pyLower (s : String) : String :=
  String.mk (s.toList.map Char.toLower)

/-- Occurrence of kw as a contiguous run inside a character list: the
Python substring test kw in v. -/
def occursIn (kw : List Char) : List Char → Bool
  | [] => kw.isEmpty
  | c :: rest => kw.isPrefixOf (c :: rest) || occursIn kw rest

/-- The Python substring test kw in v on strings. -/
def containsSub (v kw : String) : Bool :=
  occursIn kw.toList v.toList

/-- The first if condition of normalize_category (services.py line 152):
any electronics keyword occurs in the lowercased value. -/
def has_electronics_kw (v : String) : Bool :=
  containsSub v "electronic" || containsSub v "laptop" || containsSub v "phone" ||
    containsSub v "tablet" || containsSub v "charger"

/-- The second if condition of normalize_category (services.py line 154). -/
def has_bags_kw (v : String) : Bool :=
  containsSub v "bag" || containsSub v "backpack" || containsSub v "carry" ||
    containsSub v "luggage"

/-- The third if condition of normalize_category (services.py line 156). -/
def has_sports_kw (v : String) : Bool :=
  containsSub v "cloth" || containsSub v "shirt" || containsSub v "pants" ||
    containsSub v "jacket" || containsSub v "shoe" || containsSub v "wearable" ||
    containsSub v "sport"

/-- The fourth if condition of normalize_category (services.py line 158). -/
def has_bottles_kw (v : String) : Bool :=
  containsSub v "bottle" || containsSub v "flask" || containsSub v "container" ||
    containsSub v "tupperware"

/-- The fifth if condition of normalize_category (services.py line 160). -/
def has_documents_kw (v : String) : Bool :=
  containsSub v "document" || containsSub v "id" || containsSub v "passport" ||
    containsSub v "license" || containsSub v "card"

/-- The sixth if condition of normalize_category (services.py line 162). -/
def has_notebooks_kw (v : String) : Bool :=
  containsSub v "notebook" || containsSub v "book" || containsSub v "diary"

/-- normalize_category (services.py lines 150-164): lowercase the free-text
value, test the six keyword groups in order, and fall through to
OTHER_MISC.  The source returns the stored code string of the category;
here that code is the enum constructor of the same name. -/
def normalize_category (value : String) : Category :=
  let v := pyLower value
  if has_electronics_kw v then Category.ELECTRONICS
  else if has_bags_kw v then Category.BAGS_AND_CARRY
  else if has_sports_kw v then Category.SPORTS_AND_CLOTHING
  else if has_bottles_kw v then Category.BOTTLES_AND_CONTAINERS
  else if has_documents_kw v then Category.DOCUMENTS_AND_IDS
  else if has_notebooks_kw v then Category.NOTEBOOKS_AND_BOOKS
  else Category.OTHER_MISC

/-- C8: the free-text category is mapped into the category enum by
case-insensitive keyword matching: any electronics keyword
(electronic/laptop/phone/tablet/charger) yields ELECTRONICS; a bag
keyword (bag/backpack/carry/luggage) with no electronics keyword yields
BAGS_AND_CARRY; and with no keyword of any of the six groups the result
is OTHER_MISC. -/
theorem c8_normalize_category_keywords (value : String) :
    (has_electronics_kw (pyLower value) = true →
      normalize_category value = Category.ELECTRONICS) ∧
    (has_bags_kw (pyLower value) = true →
      has_electronics_kw (pyLower value) = false →
      normalize_category value = Category.BAGS_AND_CARRY) ∧
    (has_electronics_kw (pyLower value) = false →
      has_bags_kw (pyLower value) = false →
      has_sports_kw (pyLower value) = false →
      has_bottles_kw (pyLower value) = false →
      has_documents_kw (pyLower value) = false →
      has_notebooks_kw (pyLower value) = false →
      normalize_category value = Category.OTHER_MISC) := by
  refine ⟨?_, ?_, ?_⟩
  · intro h1
    simp [normalize_category, h1]
  · intro hb he
    simp [normalize_category, he, hb]
  · intro h1 h2 h3 h4 h5 h6
    simp [normalize_category, h1, h2, h3, h4, h5, h6]

/-- C8, witness: "red Nike backpack" normalizes to BAGS_AND_CARRY (bag
keyword, no electronics keyword, case-insensitively), "Laptop charger" to
ELECTRONICS, and "mystery thing" (no keyword) to OTHER_MISC. -/
theorem c8_normalize_category_keywords_witness :
    normalize_category "red Nike backpack" = Category.BAGS_AND_CARRY ∧
    normalize_category "Laptop charger" = Category.ELECTRONICS ∧
    normalize_category "mystery thing" = Category.OTHER_MISC :=
  ⟨(c8_normalize_category_keywords "red Nike backpack").2.1 (by decide) (by decide),
   (c8_normalize_category_keywords "Laptop charger").1 (by decide),
   (c8_normalize_category_keywords "mystery thing").2.2 (by decide) (by decide)
     (by decide) (by decide) (by decide) (by decide)⟩

/-- An uploaded image file as analyze_item_images consumes it: bytes is
none when image_file.read() raises (the except-continue branch), some b
otherwise; content_type is the optional attribute of the upload. -/
structure UploadedImage where
  bytes : Option (List Nat)
  content_type : Option String
  deriving DecidableEq

/-- The image_parts list built in services.py lines 29-49: readable files
only, each with its effective mime type (content_type when present and
non-empty, else image/jpeg) and its data (base64 encoding is abstracted
as the raw byte list). -/
def image_parts (files : List UploadedImage) : List (String × List Nat) :=
  files.filterMap (fun f =>
    match f.bytes with
    | none => none
    | some b =>
        some ((match f.content_type with
               | none => "image/jpeg"
               | some ct => if ct = "" then "image/jpeg" else ct), b))

/-- The three optional string fields the Gemini JSON payload may carry
after the full parse chain of services.py lines 138-141 succeeds. -/
structure GeminiFields where
  title : Option String
  description : Option String
  category : Option String
  deriving DecidableEq

/-- Outcome of the requests.post call of services.py line 113: raises
models an exception from the call itself (timeout, network); response
carries the HTTP status code together with some fields when resp.json(),
the candidates path and json.loads all succeed, and none when any step of
that parse chain raises (all caught by the enclosing except). -/
inductive HttpOutcome where
  | raises
  | response (status_code : Nat) (parsed : Option GeminiFields)
  deriving DecidableEq

/-- The mapping analyze_item_images returns: empty is the literal empty
dict of the early returns; fields is the three-key dict of the success
path (services.py lines 171-175), whose category value is the code string
of the normalized category. -/
inductive Suggestion where
  | empty
  | fields (title description : String) (category : Category)
  deriving DecidableEq

/-- The stored code string of a category (models.py lines 31-38), as
normalize_category returns it. -/
def Category.code : Category → String
  | Category.ELECTRONICS => "ELECTRONICS"
  | Category.BAGS_AND_CARRY => "BAGS_AND_CARRY"
  | Category.SPORTS_AND_CLOTHING => "SPORTS_AND_CLOTHING"
  | Category.BOTTLES_AND_CONTAINERS => "BOTTLES_AND_CONTAINERS"
  | Category.DOCUMENTS_AND_IDS => "DOCUMENTS_AND_IDS"
  | Category.NOTEBOOKS_AND_BOOKS => "NOTEBOOKS_AND_BOOKS"
  | Category.OTHER_MISC => "OTHER_MISC"

/-- Dictionary lookup on the returned mapping: the empty dict has no keys
at all; the success dict has exactly the keys title, description and
category. -/
def Suggestion.get : Suggestion → String → Option String
  | Suggestion.empty, _ => none
  | Suggestion.fields t d c, k =>
      if k = "title" then some t
      else if k = "description" then some d
      else if k = "category" then some (c.code)
      else none

/-- analyze_item_images (services.py lines 12-175): return the empty dict
when the GOOGLE_API_KEY setting is empty, when the file list is empty,
when no file could be read, when the call raises, when the status code is
not 200, or when the response does not parse; otherwise strip the three
fields (a missing or null field reads as the empty string, as
parsed.get(k) or "" does) and normalize the category. -/
def analyze_item_images (api_key : String) (files : List UploadedImage)
    (http : HttpOutcome) : Suggestion :=
  if api_key = "" then Suggestion.empty
  else if files.isEmpty then Suggestion.empty
  else if (image_parts files).isEmpty then Suggestion.empty
  else
    match http with
    | HttpOutcome.raises => Suggestion.empty
    | HttpOutcome.response code parsed =>
        if code ≠ 200 then Suggestion.empty
        else
          match parsed with
          | none => Suggestion.empty
          | some p =>
              Suggestion.fields (pyStrip (p.title.getD ""))
                (pyStrip (p.description.getD ""))
                (normalize_category (pyStrip (p.category.getD "")))

/-- A readable sample upload. -/
def c2Image : UploadedImage :=
  { bytes := some [137, 80, 78, 71], content_type := some "image/png" }

/-- C2, counterexample: invoking the operation with the API credential
missing (and a readable image present) returns the empty dict, in which
the title key is NOT present, contradicting the claim that the fields are
present as empty strings. -/
theorem c2_failure_title_absent :
    (analyze_item_images "" [c2Image]
        (HttpOutcome.response 200 none)).get "title" ≠ some "" := by
  decide

/-- C2, amended: in every invocation in which the image input is empty, the
API credential is missing, the external API returns a non-success HTTP
status, or the response cannot be parsed, the operation returns the empty
mapping - no field is present, every key lookup yields nothing - and
never an exception (the model is a total function; every exception of the
source is caught and turned into this early return). -/
theorem c2_failure_returns_empty (api_key : String) (files : List UploadedImage)
    (http : HttpOutcome)
    (h : api_key = "" ∨ files = [] ∨
         (∃ code parsed, http = HttpOutcome.response code parsed ∧ code ≠ 200) ∨
         (∃ code, http = HttpOutcome.response code none)) :
    analyze_item_images api_key files http = Suggestion.empty ∧
    ∀ k, (analyze_item_images api_key files http).get k = none := by
  have he : analyze_item_images api_key files http = Suggestion.empty := by
    rcases h with h | h | ⟨code, parsed, rfl, hc⟩ | ⟨code, rfl⟩
    · simp [analyze_item_images, h]
    · subst h
      by_cases hk : api_key = "" <;> simp [analyze_item_images, hk]
    · by_cases hk : api_key = "" <;>
        by_cases hf : files.isEmpty <;>
        by_cases hp : (image_parts files).isEmpty <;>
        simp [analyze_item_images, hk, hf, hp, hc]
    · by_cases hk : api_key = "" <;>
        by_cases hf : files.isEmpty <;>
        by_cases hp : (image_parts files).isEmpty <;>
        by_cases hc : code = 200 <;>
        simp [analyze_item_images, hk, hf, hp, hc]
  refine ⟨he, fun k => ?_⟩
  rw [he]
  rfl

/-- C2, witness: the missing-credential invocation on the sample image
returns the empty mapping and a title lookup on it yields nothing. -/
theorem c2_failure_returns_empty_witness :
    analyze_item_images "" [c2Image] (HttpOutcome.response 200 none) =
      Suggestion.empty ∧
    (analyze_item_images "" [c2Image]
        (HttpOutcome.response 200 none)).get "title" = none :=
  ⟨(c2_failure_returns_empty "" [c2Image]
      (HttpOutcome.response 200 none) (Or.inl rfl)).1,
   (c2_failure_returns_empty "" [c2Image]
      (HttpOutcome.response 200 none) (Or.inl rfl)).2 "title"⟩

end LostFound
